import Mathlib

/-!
Shallow embedding of the scrape-orchestration pipeline of this repository.

Source of authority:
  * `src/my-app/src/app/api/scrape/instagram-scraper.ts` (first variant):
    `uploadImageToS3`, `scrapeInstagram`.
  * `src/unnamed/part_001`: the `POST` submit-request handler that calls
    `scrapeInstagram`.
  * `src/my-app/src/lib/mongodb.ts`: `storeProfileData` / `getProfileData`
    (Mongo `updateOne`/`findOne` keyed by `user.username`, with upsert).

Modelling conventions:
  * JavaScript `x || d` on possibly-absent fields is modelled by `strOr`,
    `intOr`, `boolOr` on `Option` values; `""`, `0` and `false` are falsy.
  * Every external effect is a field of an `Env` record: the Apify actor
    call, each dataset-fetch attempt, image downloads, S3 puts and the
    Mongo write can each succeed or raise, and a raised JS exception is an
    `Except.error` carrying the exception `message` string.
  * `Date.now()` / `new Date().toISOString()` / the `Math.random` post-id
    are environment-supplied strings (`nowMs`, `nowIso`, `freshPostId`).
  * `scrapeInstagram` returns, next to the produced snapshot, the ordered
    list of arguments with which `storeProfileData` was invoked, so that
    persistence-before-return facts can be stated.
-/

namespace Scrape

/-- One raw image entry inside a remote record (`post.images[i]` in the
source). Fields may be absent; a null array entry is modelled by
`url := none`. -/
structure ImgRec where
  url : Option String := none
  width : Option Int := none
  height : Option Int := none
  deriving DecidableEq

/-- One heterogeneous record returned by the remote job provider's dataset
(an element of `items` in `scrapeInstagram`).  Only the fields the
orchestrator reads are modelled; an absent field is `none`.  The JS field
`type` is called `type'` because `type` is reserved in Lean. -/
structure RemoteRecord where
  username : Option String := none
  type' : Option String := none
  shortCode : Option String := none
  ownerUsername : Option String := none
  fullName : Option String := none
  biography : Option String := none
  followersCount : Option Int := none
  followingCount : Option Int := none
  profilePicUrl : Option String := none
  externalUrl : Option String := none
  verified : Option Bool := none
  id : Option String := none
  caption : Option String := none
  url : Option String := none
  commentsCount : Option Int := none
  likesCount : Option Int := none
  timestamp : Option String := none
  images : Option (List ImgRec) := none
  videoUrls : Option (List String) := none
  mentions : Option (List String) := none
  hashtags : Option (List String) := none
  deriving DecidableEq

/-- Normalized image, as emitted into `post.images` of the output. -/
structure Image where
  url : String
  width : Int
  height : Int
  deriving DecidableEq

/-- Normalized post, as emitted into `posts` of the output. -/
structure Post where
  id : String
  type' : String
  shortCode : String
  caption : String
  url : String
  commentsCount : Int
  likesCount : Int
  timestamp : String
  images : List Image
  videos : List String
  mentions : List String
  hashtags : List String
  deriving DecidableEq

/-- Normalized profile (`user` in the output). -/
structure Profile where
  username : String
  fullName : String
  biography : String
  followersCount : Int
  followingCount : Int
  profilePicUrl : String
  externalUrl : String
  verified : Bool
  deriving DecidableEq

/-- The unit of persistence and the value returned to callers.  The
success path of the source emits no `error` key, modelled by `none`. -/
structure ProfileSnapshot where
  user : Profile
  posts : List Post
  scrapedAt : String
  status : String
  error : Option String
  deriving DecidableEq

/-- JS `o || d` for a string-valued field: `undefined` and `""` are falsy. -/
def strOr (o : Option String) (d : String) : String :=
  match o with
  | none => d
  | some s => if s = "" then d else s

/-- JS `o || d` for a number-valued field: `undefined` and `0` are falsy. -/
def intOr (o : Option Int) (d : Int) : Int :=
  match o with
  | none => d
  | some n => if n = 0 then d else n

/-- JS `o || d` for a boolean-valued field: `undefined` and `false` are
falsy. -/
def boolOr (o : Option Bool) (d : Bool) : Bool :=
  match o with
  | none => d
  | some b => if b then b else d

/-- JS `o || []` for an array-valued field: arrays are always truthy, so
only absence picks the default. -/
def listOr {α : Type} (o : Option (List α)) : List α :=
  o.getD []

/-- JS truthiness of a possibly-absent string (`item.shortCode`,
`img.url`, ...). -/
def strTruthy (o : Option String) : Bool :=
  match o with
  | none => false
  | some s => s != ""

/-- JS `toLowerCase`, modelled as character-wise lowering over the
string's character list (kernel-reducible, unlike `String.toLower`'s
position-based recursion). -/
def jsToLower (s : String) : String :=
  String.mk (s.data.map Char.toLower)

/-- The environment of one `scrapeInstagram` call: configuration variables
and the outcome of every external effect.  A JS exception is an
`Except.error` carrying the exception message. -/
structure Env where
  apifyToken : String
  awsAccessKeyId : String
  awsSecretAccessKey : String
  s3BucketEnv : String
  actorCall : Except String Unit
  fetchAttempt : Nat → Except Unit (List RemoteRecord)
  download : String → Except Unit Unit
  s3Put : String → String → String → Except Unit Unit
  store : ProfileSnapshot → Except String Unit
  nowIso : String
  nowMs : String
  freshPostId : String

/-- `process.env.AWS_ACCESS_KEY_ID && process.env.AWS_SECRET_ACCESS_KEY`:
an unset or empty variable is falsy. -/
def awsConfigured (env : Env) : Bool :=
  env.awsAccessKeyId != "" && env.awsSecretAccessKey != ""

/-- `process.env.S3_BUCKET_NAME || 'instagram-scraper-data'`. -/
def bucketName (env : Env) : String :=
  if env.s3BucketEnv = "" then "instagram-scraper-data" else env.s3BucketEnv

/-- Content type chosen from the URL suffix in `uploadImageToS3`. -/
def contentTypeFor (imageUrl : String) : String :=
  let ct := "image/jpeg"
  let ct := if imageUrl.endsWith ".png" then "image/png" else ct
  let ct := if imageUrl.endsWith ".gif" then "image/gif" else ct
  if imageUrl.endsWith ".webp" then "image/webp" else ct

/-- The deterministic S3 object key
`images/(username)/(postId)/(index).jpg` built in `uploadImageToS3`. -/
def s3Key (username postId : String) (index : Nat) : String :=
  "images/" ++ username ++ "/" ++ postId ++ "/" ++ toString index ++ ".jpg"

/-- The stable URL `https://(bucket).s3.amazonaws.com/(key)` returned on a
successful upload. -/
def s3Url (bucket key : String) : String :=
  "https://" ++ bucket ++ ".s3.amazonaws.com/" ++ key

/-- `uploadImageToS3` (instagram-scraper.ts lines 22-56): download the
image, put it under the deterministic key, and return the stable URL; on
any failure of either step the surrounding `try`/`catch` returns the
original URL unchanged. -/
def uploadImageToS3 (env : Env) (imageUrl username postId : String)
    (index : Nat) : String :=
  match env.download imageUrl with
  | Except.error _ => imageUrl
  | Except.ok _ =>
    let key := s3Key username postId index
    match env.s3Put (bucketName env) key (contentTypeFor imageUrl) with
    | Except.error _ => imageUrl
    | Except.ok _ => s3Url (bucketName env) key

/-- The fetch-results retry loop (instagram-scraper.ts lines 88-106):
`while (retries < 5)` attempt the dataset fetch, break on success, count
the failure and wait otherwise.  `fuel` is the number of attempts still
permitted, `attempt` the number already made.  Returns the items (the
initial `[]` if every attempt raised) together with the total number of
fetch attempts performed. -/
def fetchLoop (fetch : Nat → Except Unit (List RemoteRecord)) :
    Nat → Nat → List RemoteRecord × Nat
  | attempt, 0 => ([], attempt)
  | attempt, fuel + 1 =>
    match fetch attempt with
    | Except.ok items => (items, attempt + 1)
    | Except.error _ => fetchLoop fetch (attempt + 1) fuel

/-- The retry bound of the loop (`while (retries < 5)`). -/
def fetchMaxRetries : Nat := 5

/-- The fixed delay between fetch attempts
(`setTimeout(resolve, 5000)`). -/
def fetchRetryDelayMs : Nat := 5000

/-- The user-extraction step (instagram-scraper.ts lines 174-183): each
output field is the record's field with the JS `||` default; the username
default is the requested username. -/
def extractUser (profile : RemoteRecord) (username : String) : Profile :=
  { username := strOr profile.username username
    fullName := strOr profile.fullName ""
    biography := strOr profile.biography ""
    followersCount := intOr profile.followersCount 0
    followingCount := intOr profile.followingCount 0
    profilePicUrl := strOr profile.profilePicUrl ""
    externalUrl := strOr profile.externalUrl ""
    verified := boolOr profile.verified false }

/-- Profile-picture relocation (lines 186-198): only when the source
record has a truthy `profilePicUrl` and both AWS credentials are set; the
relocated URL replaces `user.profilePicUrl`.  `uploadImageToS3` never
raises, so the surrounding `try`/`catch` has no other effect. -/
def relocateProfilePic (env : Env) (username : String)
    (profile : RemoteRecord) (user : Profile) : Profile :=
  match profile.profilePicUrl with
  | none => user
  | some picUrl =>
    if picUrl != "" && awsConfigured env then
      { user with profilePicUrl := uploadImageToS3 env picUrl username "profile" 0 }
    else user

/-- The profile-matching heuristic of `items.find` (lines 138-141):
`item.username?.toLowerCase() === username.toLowerCase() &&
(item.type === 'user' || item.type === 'profile' || !item.shortCode)`. -/
def isProfileItem (username : String) (item : RemoteRecord) : Bool :=
  (match item.username with
   | some s => jsToLower s == jsToLower username
   | none => false)
  && (item.type' == some "user" || item.type' == some "profile"
      || !strTruthy item.shortCode)

/-- The post filter of `items.filter` (lines 204-207):
`(item.type === 'Post' || item.type === 'post' || item.shortCode) &&
item.ownerUsername?.toLowerCase() === username.toLowerCase()`. -/
def isPostItem (username : String) (item : RemoteRecord) : Bool :=
  (item.type' == some "Post" || item.type' == some "post"
   || strTruthy item.shortCode)
  && (match item.ownerUsername with
      | some s => jsToLower s == jsToLower username
      | none => false)

/-- The per-post id passed to the uploader:
`post.shortCode || post-(Date.now())` (line 227). -/
def uploadPostId (env : Env) (post : RemoteRecord) : String :=
  strOr post.shortCode ("post-" ++ env.nowMs)

/-- One iteration body of the image loop (lines 217-240): keep the
original URL unless AWS is configured, in which case relocate; widths and
heights default to 0. -/
def buildImage (env : Env) (username postId : String) (index : Nat)
    (img : ImgRec) : Image :=
  let origUrl := img.url.getD ""
  let imageUrl :=
    if awsConfigured env then uploadImageToS3 env origUrl username postId index
    else origUrl
  { url := imageUrl, width := intOr img.width 0, height := intOr img.height 0 }

/-- The image loop (lines 215-243): `for (let i = 0; ...)` over all source
entries, pushing an output image only for entries with a truthy `url`,
while `i` advances over every entry (skipped entries still consume their
index, which feeds the S3 key). -/
def imagesLoop (env : Env) (username postId : String) :
    Nat → List ImgRec → List Image
  | _, [] => []
  | i, img :: rest =>
    if strTruthy img.url then
      buildImage env username postId i img :: imagesLoop env username postId (i + 1) rest
    else
      imagesLoop env username postId (i + 1) rest

/-- One output post (lines 211-258).  The generated fallback id
`post-(Date.now())-(random)` is the environment-supplied
`env.freshPostId`. -/
def buildPost (env : Env) (username : String) (post : RemoteRecord) : Post :=
  { id := strOr post.id env.freshPostId
    type' := strOr post.type' "Post"
    shortCode := strOr post.shortCode ""
    caption := strOr post.caption ""
    url := strOr post.url ("https://www.instagram.com/p/" ++ strOr post.shortCode "")
    commentsCount := intOr post.commentsCount 0
    likesCount := intOr post.likesCount 0
    timestamp := strOr post.timestamp env.nowIso
    images := imagesLoop env username (uploadPostId env post) 0 (listOr post.images)
    videos := listOr post.videoUrls
    mentions := listOr post.mentions
    hashtags := listOr post.hashtags }

/-- The post loop (lines 211-259): `for (const post of postItems)` pushing
each built post onto the accumulator `posts`. -/
def postsLoop (env : Env) (username : String) :
    List RemoteRecord → List Post → List Post
  | [], acc => acc
  | post :: rest, acc =>
    postsLoop env username rest (acc ++ [buildPost env username post])

/-- JS `error.message || 'Unknown error during scraping'` (line 290). -/
def errMessageOr (m : String) : String :=
  if m = "" then "Unknown error during scraping" else m

/-- The best-effort default profile built in the catch-all (lines
277-286). -/
def errorUser (username : String) : Profile :=
  { username := username, fullName := ""
    biography := "Error retrieving data."
    followersCount := 0, followingCount := 0
    profilePicUrl := "", externalUrl := "", verified := false }

/-- The snapshot built by the catch-all handler (lines 276-291) for a
caught exception with message `msg`. -/
def errorData (env : Env) (username msg : String) : ProfileSnapshot :=
  { user := errorUser username, posts := []
    scrapedAt := env.nowIso, status := "error"
    error := some (errMessageOr msg) }

/-- The snapshot built when zero records were returned (lines
114-129). -/
def emptyData (env : Env) (username : String) : ProfileSnapshot :=
  { user :=
      { username := username, fullName := ""
        biography := "No data available. This account may be private or not exist."
        followersCount := 0, followingCount := 0
        profilePicUrl := "", externalUrl := "", verified := false }
    posts := [], scrapedAt := env.nowIso
    status := "empty_or_private"
    error := some "No data returned from scraper" }

/-- The fallback profile built from `items[0]` when no record matches the
profile heuristic (lines 150-160); `fb` is `items[0]` under the JS
optional chaining `fallbackProfile?.`. -/
def fallbackUser (username : String) (fb : Option RemoteRecord) : Profile :=
  { username := username
    fullName := strOr (fb.bind RemoteRecord.fullName) ""
    biography := strOr (fb.bind RemoteRecord.biography)
      "Profile data could not be completely retrieved."
    followersCount := intOr (fb.bind RemoteRecord.followersCount) 0
    followingCount := intOr (fb.bind RemoteRecord.followingCount) 0
    profilePicUrl := strOr (fb.bind RemoteRecord.profilePicUrl) ""
    externalUrl := strOr (fb.bind RemoteRecord.externalUrl) ""
    verified := boolOr (fb.bind RemoteRecord.verified) false }

/-- The snapshot built when no record matches the profile heuristic
(lines 150-165). -/
def fallbackData (env : Env) (username : String) (fb : Option RemoteRecord) :
    ProfileSnapshot :=
  { user := fallbackUser username fb, posts := []
    scrapedAt := env.nowIso, status := "partial_data"
    error := some "Profile data not found in scraper response" }

/-- Result of one `scrapeInstagram` call: the returned snapshot together
with the ordered list of arguments passed to `storeProfileData`. -/
structure ScrapeResult where
  snapshot : ProfileSnapshot
  stored : List ProfileSnapshot
  deriving DecidableEq

/-- The catch-all handler (lines 272-301): build `errorData`, attempt to
store it (its own failure is swallowed by the inner `try`/`catch`), and
return it.  `prior` records store invocations already made inside the
`try` block. -/
def catchReturn (env : Env) (username msg : String)
    (prior : List ProfileSnapshot) : ScrapeResult :=
  let e := errorData env username msg
  ⟨e, prior ++ [e]⟩

/-- `await storeProfileData(snap); return snap` inside the `try` block: a
raised store error (mongodb.ts rethrows) transfers control to the
catch-all. -/
def storeAndReturn (env : Env) (username : String) (snap : ProfileSnapshot) :
    ScrapeResult :=
  match env.store snap with
  | Except.ok _ => ⟨snap, [snap]⟩
  | Except.error m => catchReturn env username m [snap]

/-- The orchestrator `scrapeInstagram` (instagram-scraper.ts lines
58-301).  `throw new Error('API token not configured')` and a raising
actor call are caught by the catch-all; the dataset fetch runs through
`fetchLoop`; the zero-record, no-profile-match and success paths each
store their snapshot before returning it. -/
def scrapeInstagram (env : Env) (username : String) : ScrapeResult :=
  if env.apifyToken = "" then
    catchReturn env username "API token not configured" []
  else
    match env.actorCall with
    | Except.error m => catchReturn env username m []
    | Except.ok _ =>
      let items := (fetchLoop env.fetchAttempt 0 fetchMaxRetries).1
      if items.length = 0 then
        storeAndReturn env username (emptyData env username)
      else
        match items.find? (isProfileItem username) with
        | none => storeAndReturn env username (fallbackData env username items.head?)
        | some profile =>
          let user := extractUser profile username
          let user := relocateProfilePic env username profile user
          let posts := postsLoop env username (items.filter (isPostItem username)) []
          storeAndReturn env username
            { user := user, posts := posts, scrapedAt := env.nowIso
              status := "success", error := none }

/-- Body of a response of the `POST` handler of `src/unnamed/part_001`:
either a `(message, error?)` JSON object or a snapshot. -/
inductive PostBody where
  | msg (message : String) (error : Option String)
  | data (snapshot : ProfileSnapshot)
  deriving DecidableEq

/-- Observable outcome of one `POST` call: HTTP status, body, and whether
`scrapeInstagram` was invoked. -/
structure PostResult where
  httpStatus : Nat
  body : PostBody
  scrapeCalled : Bool
  deriving DecidableEq

/-- The submit-request handler `POST` of `src/unnamed/part_001`:
`request.json()` may raise (`Except.error`), a missing `username` field is
`none`; `if (!username)` rejects a missing or empty username with 400;
otherwise `scrapeInstagram` runs and its snapshot is returned with the
default 200 status.  `scrapeInstagram` itself never raises. -/
def POST (env : Env) (reqJson : Except String (Option String)) : PostResult :=
  match reqJson with
  | Except.error m => ⟨500, PostBody.msg "Request failed" (some m), false⟩
  | Except.ok usernameField =>
    match usernameField with
    | none => ⟨400, PostBody.msg "Username is required" none, false⟩
    | some username =>
      if username = "" then
        ⟨400, PostBody.msg "Username is required" none, false⟩
      else
        ⟨200, PostBody.data (scrapeInstagram env username).snapshot, true⟩

/-- The document store modelled as an association list from the filter key
`user.username` to the stored snapshot. -/
def upsertProfile :
    List (String × ProfileSnapshot) → ProfileSnapshot →
    List (String × ProfileSnapshot)
  | [], data => [(data.user.username, data)]
  | e :: rest, data =>
    if e.1 = data.user.username then (data.user.username, data) :: rest
    else e :: upsertProfile rest data

/-- `getProfileData` (mongodb.ts lines 58-77): `findOne` on
`user.username`; a miss is `none`, not an error. -/
def getProfile (db : List (String × ProfileSnapshot)) (username : String) :
    Option ProfileSnapshot :=
  (db.find? (fun e => e.1 == username)).map (fun e => e.2)

/-- A benign concrete environment: token configured, AWS unset, first
fetch attempt yields no records, every store succeeds. -/
def baseEnv : Env :=
  { apifyToken := "tok"
    awsAccessKeyId := ""
    awsSecretAccessKey := ""
    s3BucketEnv := ""
    actorCall := Except.ok ()
    fetchAttempt := fun _ => Except.ok []
    download := fun _ => Except.ok ()
    s3Put := fun _ _ _ => Except.ok ()
    store := fun _ => Except.ok ()
    nowIso := "2025-01-01T00:00:00.000Z"
    nowMs := "1735689600000"
    freshPostId := "post-1735689600000-abc123xyz" }

/-- `baseEnv` with the provider credential absent. -/
def envNoToken : Env := { baseEnv with apifyToken := "" }

/-- `baseEnv` with every dataset-fetch attempt raising. -/
def envAllFail : Env := { baseEnv with fetchAttempt := fun _ => Except.error () }

/-- `baseEnv` with the image download raising. -/
def envDownFail : Env := { baseEnv with download := fun _ => Except.error () }

/-- A remote record with every field absent. -/
def blankRecord : RemoteRecord := {}

/-- A profile-shaped record for the account `alice`. -/
def profileRec : RemoteRecord :=
  { username := some "alice", type' := some "user"
    fullName := some "Alice A", followersCount := some 10
    profilePicUrl := some "http://cdn.example/alice.png" }

/-- A post-shaped record owned by `Alice` (case differs from the
request), with one null image entry between two real ones. -/
def postRec1 : RemoteRecord :=
  { type' := some "Post", shortCode := some "sc1"
    ownerUsername := some "Alice", id := some "p1"
    images := some [{ url := some "http://cdn.example/1.jpg", width := some 100 },
                    { url := none },
                    { url := some "http://cdn.example/2.jpg", height := some 50 }] }

/-- A second post-shaped record, recognised only by its `shortCode`. -/
def postRec2 : RemoteRecord :=
  { shortCode := some "sc2", ownerUsername := some "alice", id := some "p2" }

/-- A dataset with a post before the profile record, and a second post
after it. -/
def sampleItems : List RemoteRecord := [postRec1, profileRec, postRec2]

/-- `baseEnv` with AWS configured and the provider returning
`sampleItems` on the first attempt. -/
def envSuccess : Env :=
  { baseEnv with
    awsAccessKeyId := "AKIA", awsSecretAccessKey := "secret"
    fetchAttempt := fun _ => Except.ok sampleItems }

/-- The success-path snapshot assembled at lines 261-266, for a dataset
`items` whose matched profile record is `profile`. -/
def successData (env : Env) (username : String) (items : List RemoteRecord)
    (profile : RemoteRecord) : ProfileSnapshot :=
  { user := relocateProfilePic env username profile (extractUser profile username)
    posts := postsLoop env username (items.filter (isPostItem username)) []
    scrapedAt := env.nowIso, status := "success", error := none }

theorem errMessageOr_ne_empty (m : String) : errMessageOr m ≠ "" := by
  unfold errMessageOr
  split
  · decide
  · assumption

theorem fetchLoop_ok (f : Nat → Except Unit (List RemoteRecord))
    (a fuel : Nat) (items : List RemoteRecord) (h : f a = Except.ok items) :
    fetchLoop f a (fuel + 1) = (items, a + 1) := by
  simp [fetchLoop, h]

theorem fetchLoop_all_fail (f : Nat → Except Unit (List RemoteRecord))
    (hf : ∀ n, f n = Except.error ()) :
    ∀ fuel a, fetchLoop f a fuel = ([], a + fuel) := by
  intro fuel
  induction fuel with
  | zero => intro a; simp [fetchLoop]
  | succ k ih =>
    intro a
    rw [fetchLoop, hf a, ih (a + 1)]
    simp [Prod.ext_iff]
    omega

theorem storeAndReturn_last (env : Env) (username : String)
    (snap : ProfileSnapshot) :
    ∃ prior, (storeAndReturn env username snap).stored =
      prior ++ [(storeAndReturn env username snap).snapshot] := by
  cases h : env.store snap with
  | ok _ => exact ⟨[], by simp [storeAndReturn, h]⟩
  | error m => exact ⟨[snap], by simp [storeAndReturn, h, catchReturn]⟩

theorem postsLoop_eq_map (env : Env) (username : String) :
    ∀ (l : List RemoteRecord) (acc : List Post),
      postsLoop env username l acc = acc ++ l.map (buildPost env username) := by
  intro l
  induction l with
  | nil => intro acc; simp [postsLoop]
  | cons r rs ih => intro acc; simp [postsLoop, ih]

theorem imagesLoop_eq_enumFrom (env : Env) (username postId : String) :
    ∀ (l : List ImgRec) (i : Nat),
      imagesLoop env username postId i l =
        ((List.enumFrom i l).filter (fun x => strTruthy x.2.url)).map
          (fun x => buildImage env username postId x.1 x.2) := by
  intro l
  induction l with
  | nil => intro i; simp [imagesLoop]
  | cons img rest ih =>
    intro i
    cases h : strTruthy img.url with
    | true => simp [imagesLoop, h, List.enumFrom, List.filter_cons, ih]
    | false => simp [imagesLoop, h, List.enumFrom, List.filter_cons, ih]

theorem getProfile_upsert (d : ProfileSnapshot) :
    ∀ db : List (String × ProfileSnapshot),
      getProfile (upsertProfile db d) d.user.username = some d := by
  intro db
  induction db with
  | nil => simp [upsertProfile, getProfile]
  | cons e rest ih =>
    by_cases h : e.1 = d.user.username
    · simp [upsertProfile, h, getProfile]
    · simp only [upsertProfile, if_neg h]
      simp only [getProfile, List.find?] at ih ⊢
      rw [show (e.1 == d.user.username) = false by simp [h]]
      exact ih

theorem scrape_empty_eq (env : Env) (username : String)
    (htok : env.apifyToken ≠ "") (hact : env.actorCall = Except.ok ())
    (hitems : (fetchLoop env.fetchAttempt 0 fetchMaxRetries).1 = [])
    (hstore : env.store (emptyData env username) = Except.ok ()) :
    scrapeInstagram env username =
      ⟨emptyData env username, [emptyData env username]⟩ := by
  simp [scrapeInstagram, storeAndReturn, htok, hact, hitems, hstore]

theorem scrape_success_eq (env : Env) (username : String)
    (items : List RemoteRecord) (profile : RemoteRecord)
    (htok : env.apifyToken ≠ "") (hact : env.actorCall = Except.ok ())
    (hitems : (fetchLoop env.fetchAttempt 0 fetchMaxRetries).1 = items)
    (hne : items ≠ [])
    (hfind : items.find? (isProfileItem username) = some profile)
    (hstore : env.store (successData env username items profile) = Except.ok ()) :
    scrapeInstagram env username =
      ⟨successData env username items profile,
       [successData env username items profile]⟩ := by
  have hstore' := hstore
  simp only [successData] at hstore'
  simp [scrapeInstagram, storeAndReturn, successData, htok, hact, hitems,
    hfind, hstore', List.length_eq_zero, hne]

theorem storeAndReturn_snapshot (env : Env) (username : String)
    (snap : ProfileSnapshot) :
    (storeAndReturn env username snap).snapshot = snap ∨
    ∃ m, (storeAndReturn env username snap).snapshot = errorData env username m := by
  cases h : env.store snap with
  | ok _ => left; simp [storeAndReturn, h]
  | error m => right; exact ⟨m, by simp [storeAndReturn, h, catchReturn]⟩

theorem snapshot_cases (env : Env) (username : String) :
    (scrapeInstagram env username).snapshot.status = "success" ∨
    (scrapeInstagram env username).snapshot.status = "empty_or_private" ∨
    (scrapeInstagram env username).snapshot.status = "partial_data" ∨
    ∃ m, (scrapeInstagram env username).snapshot = errorData env username m := by
  unfold scrapeInstagram
  by_cases h0 : env.apifyToken = ""
  · rw [if_pos h0]
    exact Or.inr (Or.inr (Or.inr ⟨"API token not configured", rfl⟩))
  · rw [if_neg h0]
    cases hact : env.actorCall with
    | error m => exact Or.inr (Or.inr (Or.inr ⟨m, rfl⟩))
    | ok _ =>
      dsimp only
      by_cases hl : ((fetchLoop env.fetchAttempt 0 fetchMaxRetries).1).length = 0
      · rw [if_pos hl]
        rcases storeAndReturn_snapshot env username (emptyData env username) with h | ⟨m, h⟩
        · exact Or.inr (Or.inl (by rw [h]; rfl))
        · exact Or.inr (Or.inr (Or.inr ⟨m, h⟩))
      · rw [if_neg hl]
        cases hf : ((fetchLoop env.fetchAttempt 0 fetchMaxRetries).1).find?
            (isProfileItem username) with
        | none =>
          simp only [hf]
          rcases storeAndReturn_snapshot env username
              (fallbackData env username
                ((fetchLoop env.fetchAttempt 0 fetchMaxRetries).1).head?) with h | ⟨m, h⟩
          · exact Or.inr (Or.inr (Or.inl (by rw [h]; rfl)))
          · exact Or.inr (Or.inr (Or.inr ⟨m, h⟩))
        | some p =>
          simp only [hf]
          rcases storeAndReturn_snapshot env username _ with h | ⟨m, h⟩
          · exact Or.inl (by rw [h])
          · exact Or.inr (Or.inr (Or.inr ⟨m, h⟩))

/-- C7: normalization is total — `extractUser` always produces a fully
populated `Profile`, and every absent source field yields its documented
default: the empty string for string fields, 0 for both counts, `false`
for `verified`, and the requested username for `username` (the code's
documented fallback `profile.username || username`). -/
theorem c7_normalize_total (r : RemoteRecord) (u : String) :
    (r.username = none → (extractUser r u).username = u) ∧
    (r.fullName = none → (extractUser r u).fullName = "") ∧
    (r.biography = none → (extractUser r u).biography = "") ∧
    (r.followersCount = none → (extractUser r u).followersCount = 0) ∧
    (r.followingCount = none → (extractUser r u).followingCount = 0) ∧
    (r.profilePicUrl = none → (extractUser r u).profilePicUrl = "") ∧
    (r.externalUrl = none → (extractUser r u).externalUrl = "") ∧
    (r.verified = none → (extractUser r u).verified = false) := by
  refine ⟨?_, ?_, ?_, ?_, ?_, ?_, ?_, ?_⟩ <;>
    intro h <;> simp [extractUser, strOr, intOr, boolOr, h]

theorem c7_witness :
    (extractUser blankRecord "example").followersCount = 0 ∧
    (extractUser blankRecord "example").username = "example" ∧
    (extractUser blankRecord "example").fullName = "" ∧
    (extractUser blankRecord "example").verified = false :=
  ⟨(c7_normalize_total blankRecord "example").2.2.2.1 rfl,
   (c7_normalize_total blankRecord "example").1 rfl,
   (c7_normalize_total blankRecord "example").2.1 rfl,
   (c7_normalize_total blankRecord "example").2.2.2.2.2.2.2 rfl⟩

/-- C8: `uploadImageToS3` returns the stable object-store URL under the
deterministic key `images/(username)/(postId)/(index).jpg` when both the
download and the put succeed, and returns the original source URL
unchanged when either step fails; it never raises (it is a total
function). -/
theorem c8_media_relocation (env : Env) (imageUrl username postId : String)
    (index : Nat) :
    (env.download imageUrl = Except.ok () →
      env.s3Put (bucketName env) (s3Key username postId index)
          (contentTypeFor imageUrl) = Except.ok () →
      uploadImageToS3 env imageUrl username postId index =
        s3Url (bucketName env) (s3Key username postId index)) ∧
    (env.download imageUrl = Except.error () →
      uploadImageToS3 env imageUrl username postId index = imageUrl) ∧
    (env.s3Put (bucketName env) (s3Key username postId index)
        (contentTypeFor imageUrl) = Except.error () →
      uploadImageToS3 env imageUrl username postId index = imageUrl) := by
  refine ⟨?_, ?_, ?_⟩
  · intro h1 h2; simp [uploadImageToS3, h1, h2]
  · intro h1; simp [uploadImageToS3, h1]
  · intro h2
    cases h1 : env.download imageUrl with
    | error e => simp [uploadImageToS3, h1]
    | ok _ => simp [uploadImageToS3, h1, h2]

theorem c8_witness :
    uploadImageToS3 baseEnv "http://cdn.example/a.png" "alice" "p1" 0 =
      s3Url (bucketName baseEnv) (s3Key "alice" "p1" 0) ∧
    uploadImageToS3 envDownFail "http://cdn.example/a.png" "alice" "p1" 0 =
      "http://cdn.example/a.png" :=
  ⟨(c8_media_relocation baseEnv "http://cdn.example/a.png" "alice" "p1" 0).1 rfl rfl,
   (c8_media_relocation envDownFail "http://cdn.example/a.png" "alice" "p1" 0).2.1 rfl⟩

/-- C2, counterexample to the claim as stated: on the zero-record path
the synthetic profile does not carry only zero/empty defaults — its
`biography` is a non-empty explanatory message. -/
theorem c2_counterexample :
    (scrapeInstagram baseEnv "privateacct").snapshot.status = "empty_or_private" ∧
    (scrapeInstagram baseEnv "privateacct").snapshot.user.biography =
      "No data available. This account may be private or not exist." ∧
    (scrapeInstagram baseEnv "privateacct").snapshot.user.biography ≠ "" :=
  ⟨by decide, by decide, by decide⟩

/-- C2 (amended): if the provider returns zero records, `scrapeInstagram`
returns (and stores) the `empty_or_private` snapshot: empty posts, the
requested username, zero counts, `false` verified, empty
fullName/profilePicUrl/externalUrl — but the biography carries an
explanatory message and the `error` field is populated with
`No data returned from scraper`; the return is a normal return, not a
raised error. -/
theorem c2_empty_or_private (env : Env) (username : String)
    (htok : env.apifyToken ≠ "") (hact : env.actorCall = Except.ok ())
    (hfetch : env.fetchAttempt 0 = Except.ok [])
    (hstore : env.store (emptyData env username) = Except.ok ()) :
    scrapeInstagram env username =
      ⟨emptyData env username, [emptyData env username]⟩ ∧
    (emptyData env username).status = "empty_or_private" ∧
    (emptyData env username).posts = [] ∧
    (emptyData env username).user.username = username ∧
    (emptyData env username).user.followersCount = 0 ∧
    (emptyData env username).user.followingCount = 0 ∧
    (emptyData env username).user.fullName = "" ∧
    (emptyData env username).user.profilePicUrl = "" ∧
    (emptyData env username).user.externalUrl = "" ∧
    (emptyData env username).user.verified = false ∧
    (emptyData env username).user.biography =
      "No data available. This account may be private or not exist." ∧
    (emptyData env username).error = some "No data returned from scraper" := by
  have hitems : (fetchLoop env.fetchAttempt 0 fetchMaxRetries).1 = [] := by
    rw [show fetchMaxRetries = 4 + 1 from rfl, fetchLoop_ok _ 0 4 _ hfetch]
  exact ⟨scrape_empty_eq env username htok hact hitems hstore,
    rfl, rfl, rfl, rfl, rfl, rfl, rfl, rfl, rfl, rfl, rfl⟩

theorem c2_witness :
    scrapeInstagram baseEnv "privateacct" =
      ⟨emptyData baseEnv "privateacct", [emptyData baseEnv "privateacct"]⟩ :=
  (c2_empty_or_private baseEnv "privateacct" (by decide) rfl rfl rfl).1

/-- C3: if every dataset-fetch attempt raises, the loop performs exactly
`fetchMaxRetries = 5` attempts (with the fixed `fetchRetryDelayMs = 5000`
between them) and proceeds with the empty result set, and the call still
returns (and stores) the degraded `empty_or_private` snapshot instead of
propagating the exception. -/
theorem c3_retry_exhaustion (env : Env) (username : String)
    (htok : env.apifyToken ≠ "") (hact : env.actorCall = Except.ok ())
    (hfail : ∀ n, env.fetchAttempt n = Except.error ())
    (hstore : env.store (emptyData env username) = Except.ok ()) :
    fetchLoop env.fetchAttempt 0 fetchMaxRetries = ([], fetchMaxRetries) ∧
    fetchMaxRetries = 5 ∧
    fetchRetryDelayMs = 5000 ∧
    scrapeInstagram env username =
      ⟨emptyData env username, [emptyData env username]⟩ ∧
    (emptyData env username).status = "empty_or_private" := by
  have hloop := fetchLoop_all_fail env.fetchAttempt hfail fetchMaxRetries 0
  refine ⟨by simpa using hloop, rfl, rfl, ?_, rfl⟩
  exact scrape_empty_eq env username htok hact (by rw [hloop]) hstore

theorem c3_witness :
    scrapeInstagram envAllFail "ghost" =
      ⟨emptyData envAllFail "ghost", [emptyData envAllFail "ghost"]⟩ :=
  (c3_retry_exhaustion envAllFail "ghost" (by decide) rfl (fun _ => rfl) rfl).2.2.2.1

/-- C1: for every non-empty username, `scrapeInstagram` terminates (it is
a total function) and returns a `ProfileSnapshot`-shaped value whose
status is one of the four emitted statuses; whenever an unhandled
exception was converted by the catch-all (the only way `status = error`
arises), the snapshot carries a populated (non-empty) error message and
the best-effort default profile `errorUser username`. -/
theorem c1_always_returns_snapshot (env : Env) (username : String)
    (_hu : username ≠ "") :
    ((scrapeInstagram env username).snapshot.status = "success" ∨
     (scrapeInstagram env username).snapshot.status = "empty_or_private" ∨
     (scrapeInstagram env username).snapshot.status = "partial_data" ∨
     (scrapeInstagram env username).snapshot.status = "error") ∧
    ((scrapeInstagram env username).snapshot.status = "error" →
      ∃ m, (scrapeInstagram env username).snapshot.error = some m ∧ m ≠ "" ∧
        (scrapeInstagram env username).snapshot.user = errorUser username) := by
  have hc := snapshot_cases env username
  constructor
  · rcases hc with h | h | h | ⟨m, h⟩
    · exact Or.inl h
    · exact Or.inr (Or.inl h)
    · exact Or.inr (Or.inr (Or.inl h))
    · exact Or.inr (Or.inr (Or.inr (by rw [h]; rfl)))
  · intro herr
    rcases hc with h | h | h | ⟨m, h⟩
    · rw [h] at herr; exact absurd herr (by decide)
    · rw [h] at herr; exact absurd herr (by decide)
    · rw [h] at herr; exact absurd herr (by decide)
    · exact ⟨errMessageOr m, by rw [h]; rfl, errMessageOr_ne_empty m, by rw [h]; rfl⟩

theorem c1_witness :
    ((scrapeInstagram baseEnv "alice").snapshot.status = "success" ∨
     (scrapeInstagram baseEnv "alice").snapshot.status = "empty_or_private" ∨
     (scrapeInstagram baseEnv "alice").snapshot.status = "partial_data" ∨
     (scrapeInstagram baseEnv "alice").snapshot.status = "error") ∧
    ((scrapeInstagram baseEnv "alice").snapshot.status = "error" →
      ∃ m, (scrapeInstagram baseEnv "alice").snapshot.error = some m ∧ m ≠ "" ∧
        (scrapeInstagram baseEnv "alice").snapshot.user = errorUser "alice") :=
  c1_always_returns_snapshot baseEnv "alice" (by decide)

/-- C4, counterexample to the claim as stated: with the provider
credential absent, the submit-request endpoint does not surface a 5xx
configuration failure — the internal `API token not configured` exception
is converted by the orchestrator's catch-all into a `status = error`
snapshot that `POST` returns with HTTP 200. -/
theorem c4_counterexample :
    (POST envNoToken (Except.ok (some "alice"))).httpStatus = 200 ∧
    ¬ 500 ≤ (POST envNoToken (Except.ok (some "alice"))).httpStatus ∧
    (POST envNoToken (Except.ok (some "alice"))).body =
      PostBody.data (errorData envNoToken "alice" "API token not configured") :=
  ⟨by decide, by decide, by decide⟩

/-- C4 (amended): when `APIFY_API_TOKEN` is absent, `scrapeInstagram`
raises `API token not configured` internally, which its own catch-all
converts into a `status = error` snapshot carrying that message; `POST`
returns this snapshot with HTTP 200 (not a 5xx), so the caller learns the
configuration is broken through the snapshot's `error` field rather than
through the HTTP status, and no remote job or dataset fetch is consulted
(the result is independent of `actorCall` and `fetchAttempt`). -/
theorem c4_not_configured (env : Env) (username : String)
    (htok : env.apifyToken = "") (hu : username ≠ "") :
    (scrapeInstagram env username).snapshot =
      errorData env username "API token not configured" ∧
    (scrapeInstagram env username).snapshot.status = "error" ∧
    (scrapeInstagram env username).snapshot.error =
      some "API token not configured" ∧
    (POST env (Except.ok (some username))).httpStatus = 200 ∧
    (POST env (Except.ok (some username))).body =
      PostBody.data (errorData env username "API token not configured") ∧
    (∀ ac fetch,
      scrapeInstagram { env with actorCall := ac, fetchAttempt := fetch } username =
        scrapeInstagram env username) := by
  have hmsg : errMessageOr "API token not configured" = "API token not configured" := by
    decide
  have hs : scrapeInstagram env username =
      catchReturn env username "API token not configured" [] := by
    simp [scrapeInstagram, htok]
  refine ⟨by rw [hs]; rfl, by rw [hs]; rfl, ?_, ?_, ?_, ?_⟩
  · rw [hs]
    show some (errMessageOr "API token not configured") = _
    rw [hmsg]
  · simp [POST, hu]
  · simp [POST, hu]
    rw [hs]; rfl
  · intro ac fetch
    simp [scrapeInstagram, htok, catchReturn, errorData, errorUser]

theorem c4_witness :
    (POST envNoToken (Except.ok (some "bob"))).httpStatus = 200 :=
  (c4_not_configured envNoToken "bob" rfl (by decide)).2.2.2.1

/-- C5, counterexample to the claim as stated: a whitespace-only username
is truthy in JS, so `POST` does not reject it — the scrape is invoked and
a 200 response is produced, not a 4xx. -/
theorem c5_counterexample :
    (POST baseEnv (Except.ok (some " "))).scrapeCalled = true ∧
    (POST baseEnv (Except.ok (some " "))).httpStatus = 200 ∧
    ¬ (POST baseEnv (Except.ok (some " "))).httpStatus = 400 :=
  ⟨by decide, by decide, by decide⟩

/-- C5 (amended): for a missing or empty username, `POST` fails with the
400 `Username is required` response before `scrapeInstagram` is invoked;
a whitespace-only username is not rejected and proceeds to the scrape. -/
theorem c5_invalid_input (env : Env) :
    POST env (Except.ok (some "")) =
      ⟨400, PostBody.msg "Username is required" none, false⟩ ∧
    POST env (Except.ok none) =
      ⟨400, PostBody.msg "Username is required" none, false⟩ ∧
    (POST env (Except.ok (some ""))).scrapeCalled = false ∧
    (POST env (Except.ok (some " "))).scrapeCalled = true := by
  refine ⟨?_, rfl, ?_, ?_⟩
  · simp [POST]
  · simp [POST]
  · simp [POST]

/-- C6: on every path of `scrapeInstagram` — success, empty_or_private,
partial_data and error — the returned snapshot is the argument of the
last `storeProfileData` invocation made before returning; and the
persistence gateway's upsert stores it under its `user.username` key, so
a subsequent `getProfile` for that key yields it. -/
theorem c6_persist_before_return (env : Env) (username : String) :
    (∃ prior, (scrapeInstagram env username).stored =
      prior ++ [(scrapeInstagram env username).snapshot]) ∧
    (∀ db, getProfile
        (upsertProfile db (scrapeInstagram env username).snapshot)
        (scrapeInstagram env username).snapshot.user.username =
      some (scrapeInstagram env username).snapshot) := by
  constructor
  · unfold scrapeInstagram
    by_cases h0 : env.apifyToken = ""
    · rw [if_pos h0]; exact ⟨[], rfl⟩
    · rw [if_neg h0]
      cases hact : env.actorCall with
      | error m => exact ⟨[], rfl⟩
      | ok _ =>
        dsimp only
        by_cases hl : ((fetchLoop env.fetchAttempt 0 fetchMaxRetries).1).length = 0
        · rw [if_pos hl]; exact storeAndReturn_last env username _
        · rw [if_neg hl]
          cases hf : ((fetchLoop env.fetchAttempt 0 fetchMaxRetries).1).find?
              (isProfileItem username) with
          | none => simp only [hf]; exact storeAndReturn_last env username _
          | some p => simp only [hf]; exact storeAndReturn_last env username _
  · intro db
    exact getProfile_upsert _ db

/-- C9: on the success path, the output posts sequence is exactly the
image of the filtered post-shaped records in their original order, and
within each built post the images are the record's truthy-URL image
entries in source order (each carrying its original index into the
relocation key). -/
theorem c9_ordering (env : Env) (username : String)
    (items : List RemoteRecord) (profile : RemoteRecord)
    (htok : env.apifyToken ≠ "") (hact : env.actorCall = Except.ok ())
    (hfetch : env.fetchAttempt 0 = Except.ok items) (hne : items ≠ [])
    (hfind : items.find? (isProfileItem username) = some profile)
    (hstore : env.store (successData env username items profile) = Except.ok ()) :
    (scrapeInstagram env username).snapshot.posts =
      (items.filter (isPostItem username)).map (buildPost env username) ∧
    ∀ r : RemoteRecord,
      (buildPost env username r).images =
        ((listOr r.images).enum.filter (fun x => strTruthy x.2.url)).map
          (fun x => buildImage env username (uploadPostId env r) x.1 x.2) := by
  have hitems : (fetchLoop env.fetchAttempt 0 fetchMaxRetries).1 = items := by
    rw [show fetchMaxRetries = 4 + 1 from rfl, fetchLoop_ok _ 0 4 _ hfetch]
  constructor
  · rw [scrape_success_eq env username items profile htok hact hitems hne hfind hstore]
    simp [successData, postsLoop_eq_map]
  · intro r
    simp [buildPost, imagesLoop_eq_enumFrom, List.enum]

theorem c9_witness :
    (scrapeInstagram envSuccess "alice").snapshot.posts =
      (sampleItems.filter (isPostItem "alice")).map (buildPost envSuccess "alice") ∧
    (buildPost envSuccess "alice" postRec1).images =
      ((listOr postRec1.images).enum.filter (fun x => strTruthy x.2.url)).map
        (fun x => buildImage envSuccess "alice" (uploadPostId envSuccess postRec1) x.1 x.2) := by
  have h := c9_ordering envSuccess "alice" sampleItems profileRec
    (by decide) rfl rfl (by decide) (by decide) rfl
  exact ⟨h.1, h.2 postRec1⟩

/-- C10: on the success path, every post of the returned snapshot is
built from a dataset record whose `ownerUsername` is present and equals
the requested username case-insensitively; records owned by any other
account never reach the output posts list. -/
theorem c10_owner_matches_request (env : Env) (username : String)
    (items : List RemoteRecord) (profile : RemoteRecord)
    (htok : env.apifyToken ≠ "") (hact : env.actorCall = Except.ok ())
    (hfetch : env.fetchAttempt 0 = Except.ok items) (hne : items ≠ [])
    (hfind : items.find? (isProfileItem username) = some profile)
    (hstore : env.store (successData env username items profile) = Except.ok ()) :
    ∀ q ∈ (scrapeInstagram env username).snapshot.posts,
      ∃ r ∈ items,
        (∃ s, r.ownerUsername = some s ∧ jsToLower s = jsToLower username) ∧
        q = buildPost env username r := by
  have hitems : (fetchLoop env.fetchAttempt 0 fetchMaxRetries).1 = items := by
    rw [show fetchMaxRetries = 4 + 1 from rfl, fetchLoop_ok _ 0 4 _ hfetch]
  rw [scrape_success_eq env username items profile htok hact hitems hne hfind hstore]
  intro q hq
  simp only [successData] at hq
  rw [postsLoop_eq_map] at hq
  simp only [List.nil_append] at hq
  rcases List.mem_map.mp hq with ⟨r, hr, rfl⟩
  have hmem := List.mem_filter.mp hr
  refine ⟨r, hmem.1, ?_, rfl⟩
  have hpred := hmem.2
  unfold isPostItem at hpred
  rw [Bool.and_eq_true] at hpred
  cases howner : r.ownerUsername with
  | none => rw [howner] at hpred; simp at hpred
  | some s =>
    rw [howner] at hpred
    refine ⟨s, rfl, ?_⟩
    have h2 := hpred.2
    simpa using h2

theorem c10_witness :
    ∃ r ∈ sampleItems,
      (∃ s, r.ownerUsername = some s ∧ jsToLower s = jsToLower "alice") ∧
      buildPost envSuccess "alice" postRec1 = buildPost envSuccess "alice" r :=
  c10_owner_matches_request envSuccess "alice" sampleItems profileRec
    (by decide) rfl rfl (by decide) (by decide) rfl
    (buildPost envSuccess "alice" postRec1) (by decide)

end Scrape






